import Mathlib

/-!
# video/out/opengl/hwdec_drmprime_egl.c

A shallow embedding of the DRM-PRIME/EGL hardware-decoding interop driver:
`scale_dst_rect`, `init`, `drmprime_gl_mapper_init`,
`drmprime_gl_mapper_uninit`, `drmprime_gl_mapper_map` and
`drmprime_gl_mapper_unmap`.

Conventions of the embedding.

* C structs are structures, fixed arrays of four elements are functions on
  `Fin 4`, pointers that the code tests or dereferences are `Option`s
  (`none` is `NULL`), opaque handles (`EGLImageKHR`, `GLuint`, function
  pointers) are natural numbers with `0` for the null handle.
* Every function takes the state it works on and returns a `Run`: the
  external calls it made in program order, the state it left behind, and
  either its return value or the fault that stopped it (a failed `assert`,
  an index past the end of a four element array, a null dereference).
* What an external function answers is read from an `Env` record, so every
  theorem that quantifies over `Env` holds for every behaviour of the
  graphics stack.
* Diagnostic output (`mp_err`) is left out of the call list.
-/

namespace DrmprimeEgl

/-! ## Constants -/

/-- Constants that the file uses and that system or project headers which are
not part of the source file define (`EGL/egl.h`, `video/out/opengl/common.h`,
`video/img_format.h`, `video/out/gpu/ra.h`). -/
structure Headers where
  EGL_NONE : Int
  EGL_WIDTH : Int
  EGL_HEIGHT : Int
  MPGL_CAP_TEX_RG : Nat
  IMGFMT_NV12 : Int
  RA_CTYPE_UNORM : Int

def EGL_LINUX_DMA_BUF_EXT : Int := 0x3270
def EGL_LINUX_DRM_FOURCC_EXT : Int := 0x3271
def EGL_DMA_BUF_PLANE0_FD_EXT : Int := 0x3272
def EGL_DMA_BUF_PLANE0_OFFSET_EXT : Int := 0x3273
def EGL_DMA_BUF_PLANE0_PITCH_EXT : Int := 0x3274
def EGL_DMA_BUF_PLANE1_FD_EXT : Int := 0x3275
def EGL_DMA_BUF_PLANE1_OFFSET_EXT : Int := 0x3276
def EGL_DMA_BUF_PLANE1_PITCH_EXT : Int := 0x3277
def EGL_DMA_BUF_PLANE2_FD_EXT : Int := 0x3278
def EGL_DMA_BUF_PLANE2_OFFSET_EXT : Int := 0x3279
def EGL_DMA_BUF_PLANE2_PITCH_EXT : Int := 0x327A
def EGL_DMA_BUF_PLANE3_FD_EXT : Int := 0x3440
def EGL_DMA_BUF_PLANE3_OFFSET_EXT : Int := 0x3441
def EGL_DMA_BUF_PLANE3_PITCH_EXT : Int := 0x3442

/-- The token pasting `EGL_DMA_BUF_PLANE ## plane ## _FD_EXT`. -/
def EGL_DMA_BUF_PLANE_FD_EXT : Fin 4 → Int
  | 0 => EGL_DMA_BUF_PLANE0_FD_EXT
  | 1 => EGL_DMA_BUF_PLANE1_FD_EXT
  | 2 => EGL_DMA_BUF_PLANE2_FD_EXT
  | 3 => EGL_DMA_BUF_PLANE3_FD_EXT

/-- The token pasting `EGL_DMA_BUF_PLANE ## plane ## _OFFSET_EXT`. -/
def EGL_DMA_BUF_PLANE_OFFSET_EXT : Fin 4 → Int
  | 0 => EGL_DMA_BUF_PLANE0_OFFSET_EXT
  | 1 => EGL_DMA_BUF_PLANE1_OFFSET_EXT
  | 2 => EGL_DMA_BUF_PLANE2_OFFSET_EXT
  | 3 => EGL_DMA_BUF_PLANE3_OFFSET_EXT

/-- The token pasting `EGL_DMA_BUF_PLANE ## plane ## _PITCH_EXT`. -/
def EGL_DMA_BUF_PLANE_PITCH_EXT : Fin 4 → Int
  | 0 => EGL_DMA_BUF_PLANE0_PITCH_EXT
  | 1 => EGL_DMA_BUF_PLANE1_PITCH_EXT
  | 2 => EGL_DMA_BUF_PLANE2_PITCH_EXT
  | 3 => EGL_DMA_BUF_PLANE3_PITCH_EXT

/-- Names of the OpenGL enumerators passed to `BindTexture` and
`TexParameteri`. -/
inductive GLenum
  | GL_TEXTURE_2D
  | GL_TEXTURE_MIN_FILTER
  | GL_TEXTURE_MAG_FILTER
  | GL_TEXTURE_WRAP_S
  | GL_TEXTURE_WRAP_T
  | GL_LINEAR
  | GL_CLAMP_TO_EDGE
  deriving DecidableEq, Repr

/-! ## Data model -/

/-- What stops a function before it returns. -/
inductive Fault
  | assertion_failed
  | out_of_bounds
  | null_dereference
  deriving DecidableEq, Repr

/-- Model of `AVDRMObjectDescriptor` (only the field the file reads). -/
structure AVDRMObjectDescriptor where
  fd : Int
  deriving DecidableEq, Repr

/-- Model of `AVDRMPlaneDescriptor`, its fields as they are stored into the `int`
attribute array. -/
structure AVDRMPlaneDescriptor where
  object_index : Int
  offset : Int
  pitch : Int
  deriving DecidableEq, Repr

/-- Model of `AVDRMLayerDescriptor`. -/
structure AVDRMLayerDescriptor where
  format : Int
  nb_planes : Int
  planes : Fin 4 → AVDRMPlaneDescriptor

/-- Model of `AVDRMFrameDescriptor`. -/
structure AVDRMFrameDescriptor where
  nb_objects : Int
  objects : Fin 4 → AVDRMObjectDescriptor
  nb_layers : Int
  layers : Fin 4 → AVDRMLayerDescriptor

/-- Model of `struct mp_rect`. -/
structure mp_rect where
  x0 : Int
  y0 : Int
  x1 : Int
  y1 : Int
  deriving DecidableEq, Repr

/-! ## `scale_dst_rect` -/

/-- Conversion of a `double` to `int`: the fractional part is discarded
(truncation toward zero).  The `double` values are modelled by exact
rationals. -/
def toInt (q : ℚ) : Int := Int.tdiv q.num q.den

/-- The local `ratio` of `scale_dst_rect`: the smaller of `hratio` and
`vratio`. -/
def scale_ratio (display_w display_h : Int) (source_w source_h : Int) : ℚ :=
  let hratio : ℚ := (display_w : ℚ) / (source_w : ℚ)
  let vratio : ℚ := (display_h : ℚ) / (source_h : ℚ)
  if hratio ≤ vratio then hratio else vratio

/-- The local `offset_x` of `scale_dst_rect`. -/
def scale_offset_x (display_w display_h : Int) (source_w source_h : Int) : Int :=
  toInt (((display_w : ℚ) - scale_ratio display_w display_h source_w source_h * (source_w : ℚ)) / 2)

/-- The local `offset_y` of `scale_dst_rect`. -/
def scale_offset_y (display_w display_h : Int) (source_w source_h : Int) : Int :=
  toInt (((display_h : ℚ) - scale_ratio display_w display_h source_w source_h * (source_h : ℚ)) / 2)

/-- The function `scale_dst_rect`, for a device whose private state holds
`display_w` and `display_h`; the result is the rectangle written to `dst`.
`double` arithmetic is modelled by exact rational arithmetic. -/
def scale_dst_rect (display_w display_h : Int) (source_w source_h : Int)
    (src : mp_rect) : mp_rect :=
  let ratio : ℚ := scale_ratio display_w display_h source_w source_h
  let x0 := toInt ((src.x0 : ℚ) * ratio)
  let x1 := toInt ((src.x1 : ℚ) * ratio)
  let y0 := toInt ((src.y0 : ℚ) * ratio)
  let y1 := toInt ((src.y1 : ℚ) * ratio)
  let offset_x := scale_offset_x display_w display_h source_w source_h
  let offset_y := scale_offset_y display_w display_h source_w source_h
  { x0 := x0 + offset_x, x1 := x1 + offset_x,
    y0 := y0 + offset_y, y1 := y1 + offset_y }

/-! ## The attribute list of `drmprime_gl_mapper_map` -/

/-- The locals `attribs` and `num_attribs`. -/
structure AttribBuf where
  attribs : List Int
  num_attribs : Nat
  deriving DecidableEq, Repr

/-- The size of `int attribs[20]`, that is `MP_ARRAY_SIZE(attribs)`. -/
def MP_ARRAY_SIZE_attribs : Nat := 20

/-- The initialiser `int attribs[20] = {EGL_NONE}; int num_attribs = 0;`. -/
def AttribBuf.init (H : Headers) : AttribBuf :=
  { attribs := H.EGL_NONE :: List.replicate 19 0, num_attribs := 0 }

/-- The macro `ADD_ATTRIB(name, value)`.  The assertion comes first; `value`
is an expression that may itself fault when it is evaluated. -/
def ADD_ATTRIB (H : Headers) (b : AttribBuf) (name : Int)
    (value : Except Fault Int) : Except Fault AttribBuf :=
  if b.num_attribs + 3 < MP_ARRAY_SIZE_attribs then
    match value with
    | .error f => .error f
    | .ok v =>
      .ok { attribs := ((b.attribs.set b.num_attribs name).set (b.num_attribs + 1) v).set
                          (b.num_attribs + 2) H.EGL_NONE,
            num_attribs := b.num_attribs + 2 }
  else .error Fault.assertion_failed

/-- The expression `desc->objects[i].fd` for an `int` index `i`. -/
def object_fd (desc : AVDRMFrameDescriptor) (i : Int) : Except Fault Int :=
  if h : 0 ≤ i ∧ i < 4 then
    .ok (desc.objects ⟨i.toNat, by omega⟩).fd
  else .error Fault.out_of_bounds

/-- The macro `ADD_PLANE_ATTRIBS(plane)` for the layer `desc->layers[n]`. -/
def ADD_PLANE_ATTRIBS (H : Headers) (desc : AVDRMFrameDescriptor) (n : Fin 4)
    (plane : Fin 4) (b : AttribBuf) : Except Fault AttribBuf := do
  let b ← ADD_ATTRIB H b (EGL_DMA_BUF_PLANE_FD_EXT plane)
            (object_fd desc ((desc.layers n).planes plane).object_index)
  let b ← ADD_ATTRIB H b (EGL_DMA_BUF_PLANE_OFFSET_EXT plane)
            (.ok ((desc.layers n).planes plane).offset)
  ADD_ATTRIB H b (EGL_DMA_BUF_PLANE_PITCH_EXT plane)
            (.ok ((desc.layers n).planes plane).pitch)

/-- The attribute list that one turn of the loop of `drmprime_gl_mapper_map`
builds for plane `n`: lines 261 to 274, where `w` and `h` are
`p_mapper->tex[n]->params.w` and `p_mapper->tex[n]->params.h`. -/
def build_attribs (H : Headers) (desc : AVDRMFrameDescriptor) (n : Fin 4)
    (w h : Int) : Except Fault AttribBuf := do
  let b := AttribBuf.init H
  let b ← ADD_ATTRIB H b EGL_LINUX_DRM_FOURCC_EXT (.ok (desc.layers n).format)
  let b ← ADD_ATTRIB H b H.EGL_WIDTH (.ok w)
  let b ← ADD_ATTRIB H b H.EGL_HEIGHT (.ok h)
  let b ← ADD_PLANE_ATTRIBS H desc n 0 b
  let b ← if (desc.layers n).nb_planes > 1 then ADD_PLANE_ATTRIBS H desc n 1 b else .ok b
  let b ← if (desc.layers n).nb_planes > 2 then ADD_PLANE_ATTRIBS H desc n 2 b else .ok b
  let b ← if (desc.layers n).nb_planes > 3 then ADD_PLANE_ATTRIBS H desc n 3 b else .ok b
  return b

/-! ## State -/

/-- Model of `struct mp_image_params`: the two fields the file writes, and the frame
size standing for the fields it only copies. -/
structure mp_image_params where
  imgfmt : Int
  hw_subfmt : Int
  w : Int
  h : Int
  deriving DecidableEq, Repr

/-- Model of `struct mp_image`: its parameters and `planes[0]`, which for a DRM-PRIME
frame addresses the frame descriptor. -/
structure mp_image where
  params : mp_image_params
  planes0 : Option AVDRMFrameDescriptor

/-- Model of `struct ra_format` (only the field the file reads). -/
structure ra_format where
  ctype : Int
  deriving DecidableEq, Repr

/-- Model of `struct ra_imgfmt_desc`. -/
structure ra_imgfmt_desc where
  num_planes : Int
  planes : Fin 4 → Option ra_format

/-- Model of `struct ra_tex_params`, the fields set at lines 199 to 207. -/
structure ra_tex_params where
  dimensions : Int
  w : Int
  h : Int
  d : Int
  format : Option ra_format
  render_src : Bool
  src_linear : Bool
  deriving DecidableEq, Repr

/-- Model of `struct ra_tex`: a texture object of the renderer. -/
structure ra_tex where
  params : ra_tex_params
  id : Nat
  deriving DecidableEq, Repr

/-- Model of `struct mp_hwdec_ctx`. -/
structure mp_hwdec_ctx where
  driver_name : String
  av_device_ref : Nat
  deriving DecidableEq, Repr

/-- Model of `struct priv`. -/
structure priv where
  log : Nat
  num_planes : Int
  display_w : Int
  display_h : Int
  gl_textures : Fin 4 → Nat
  images : Fin 4 → Nat
  CreateImageKHR : Nat
  DestroyImageKHR : Nat
  EGLImageTargetTexture2DOES : Nat
  desc : Option AVDRMFrameDescriptor
  layout : mp_image
  tex : Fin 4 → Option ra_tex
  hwctx : mp_hwdec_ctx

/-- A `struct priv` as `talloc_zero_size` hands it out: all bytes zero. -/
def priv.zeroed : priv :=
  { log := 0, num_planes := 0, display_w := 0, display_h := 0,
    gl_textures := fun _ => 0, images := fun _ => 0,
    CreateImageKHR := 0, DestroyImageKHR := 0, EGLImageTargetTexture2DOES := 0,
    desc := none, layout := { params := ⟨0, 0, 0, 0⟩, planes0 := none },
    tex := fun _ => none, hwctx := ⟨"", 0⟩ }

/-- Model of `struct ra_hwdec`: the device level object.  Its private state is the
block of `.priv_size = sizeof(struct priv)` bytes of line 305. -/
structure ra_hwdec where
  log : Nat
  driver_name : String
  priv : priv

/-- Model of `struct ra_hwdec_mapper`.  `priv` is the mapper's own block of
`.priv_size = sizeof(struct priv)` bytes of line 311, a different object from
`owner.priv`. -/
structure ra_hwdec_mapper where
  owner : ra_hwdec
  priv : Option priv
  src_params : mp_image_params
  dst_params : mp_image_params
  src : Option mp_image
  tex : Fin 4 → Option ra_tex

/-! ## External calls -/

/-- A call into the graphics stack, the renderer or the allocator, with the
arguments that vary.  `fn` is the function pointer the call goes through. -/
inductive Call
  | hwdec_devices_add (ctx : mp_hwdec_ctx)
  | GenTextures (n : Nat) (ids : List Nat)
  | BindTexture (target : GLenum) (texture : Nat)
  | TexParameteri (target pname param : GLenum)
  | DeleteTextures (n : Nat) (ids : List Nat)
  | ra_create_wrapped_tex (params : ra_tex_params) (gl_texture : Nat)
  | ra_tex_free (tex : Option ra_tex)
  | talloc_free
  | CreateImageKHR (fn dpy : Nat) (target : Int) (attribs : List Int)
  | DestroyImageKHR (fn dpy image : Nat)
  | EGLImageTargetTexture2DOES (fn : Nat) (target : GLenum) (image : Nat)
  deriving DecidableEq, Repr

/-- What the world outside the file answers. -/
structure Env where
  /-- Answer of `ra_is_gl(hw->ra)` -/
  ra_is_gl : Bool
  /-- Answer of `eglGetCurrentContext()`, `0` for `EGL_NO_CONTEXT` -/
  eglGetCurrentContext : Nat
  /-- Answer of `eglGetCurrentDisplay()` -/
  eglGetCurrentDisplay : Nat
  /-- Answer of `eglQueryString(display, EGL_EXTENSIONS)` -/
  eglQueryString : Option String
  /-- Answer of `gl->extensions` -/
  gl_extensions : Option String
  /-- Answer of `gl->mpgl_caps` -/
  gl_mpgl_caps : Nat
  /-- Answer of `gl_check_extension(extensions, ext)` -/
  gl_check_extension : Option String → String → Bool
  /-- Answer of `av_hwdevice_ctx_create(&ref, AV_HWDEVICE_TYPE_DRM, "/dev/dri/card0", NULL, 0)`:
  the return value and the reference stored through the first argument -/
  av_hwdevice_ctx_create : Int × Nat
  /-- Answer of `ra_get_imgfmt_desc(ra, imgfmt, &desc)`: `none` when it returns false -/
  ra_get_imgfmt_desc : Int → Option ra_imgfmt_desc
  /-- Answer of `mp_image_set_params(&layout, &params)`: the image it leaves -/
  mp_image_set_params : mp_image → mp_image_params → mp_image
  /-- Answer of `mp_image_plane_w(&layout, n)` -/
  mp_image_plane_w : mp_image → Nat → Int
  /-- Answer of `mp_image_plane_h(&layout, n)` -/
  mp_image_plane_h : mp_image → Nat → Int
  /-- Answer of `eglGetProcAddress(name)` -/
  eglGetProcAddress : String → Nat
  /-- Answer of `gl->GenTextures(4, ids)`: the four names written to `ids` -/
  GenTextures : Fin 4 → Nat
  /-- Answer of `ra_create_wrapped_tex(ra, &params, gl_texture)` -/
  ra_create_wrapped_tex : ra_tex_params → Nat → Option ra_tex
  /-- the image that the create entry point returns for destination plane `n`
  and the attribute array it is given -/
  CreateImageKHR : Nat → List Int → Nat
  /-- the `EGLBoolean` that the destroy entry point returns for an image -/
  DestroyImageKHR : Nat → Bool

/-- The outcome of running a function: the external calls in program order,
the state left behind, and the return value or the fault. -/
structure Run (σ ρ : Type) where
  calls : List Call
  state : σ
  result : Except Fault ρ

/-- Put the calls made so far in front of the calls of the rest of the run. -/
def Run.after {σ ρ : Type} (calls : List Call) (r : Run σ ρ) : Run σ ρ :=
  { r with calls := calls ++ r.calls }

/-- The four elements of an array, in index order. -/
def arr4 {α : Type} (a : Fin 4 → α) : List α := [a 0, a 1, a 2, a 3]

/-! ## `init` -/

/-- The function `init` (lines 112 to 155). -/
def init (H : Headers) (env : Env) (hw : ra_hwdec) : Run ra_hwdec Int :=
  let p : priv := { hw.priv with log := hw.log }
  let hw : ra_hwdec := { hw with priv := p }
  if !env.ra_is_gl then
    ⟨[], hw, .ok 1⟩
  else if env.eglGetCurrentContext = 0 then
    ⟨[], hw, .ok 1⟩
  else
    match env.eglQueryString with
    | none => ⟨[], hw, .ok 1⟩
    | some exts =>
      if !env.gl_check_extension (some exts) "EGL_EXT_image_dma_buf_import" ||
         !env.gl_check_extension (some exts) "EGL_KHR_image_base" ||
         !env.gl_check_extension env.gl_extensions "GL_OES_EGL_image" ||
         (env.gl_mpgl_caps &&& H.MPGL_CAP_TEX_RG == 0) then
        ⟨[], hw, .ok 1⟩
      else
        let p : priv := { p with hwctx := { driver_name := hw.driver_name, av_device_ref := 0 } }
        let p : priv := { p with hwctx := { p.hwctx with av_device_ref := env.av_hwdevice_ctx_create.2 } }
        let hw : ra_hwdec := { hw with priv := p }
        if env.av_hwdevice_ctx_create.1 = 0 then
          ⟨[Call.hwdec_devices_add p.hwctx], hw, .ok 0⟩
        else
          ⟨[], hw, .ok 0⟩

/-! ## `drmprime_gl_mapper_init` -/

/-- The calls of lines 192 to 197 for the texture name `t`. -/
def configure_texture (t : Nat) : List Call :=
  [ Call.BindTexture GLenum.GL_TEXTURE_2D t,
    Call.TexParameteri GLenum.GL_TEXTURE_2D GLenum.GL_TEXTURE_MIN_FILTER GLenum.GL_LINEAR,
    Call.TexParameteri GLenum.GL_TEXTURE_2D GLenum.GL_TEXTURE_MAG_FILTER GLenum.GL_LINEAR,
    Call.TexParameteri GLenum.GL_TEXTURE_2D GLenum.GL_TEXTURE_WRAP_S GLenum.GL_CLAMP_TO_EDGE,
    Call.TexParameteri GLenum.GL_TEXTURE_2D GLenum.GL_TEXTURE_WRAP_T GLenum.GL_CLAMP_TO_EDGE,
    Call.BindTexture GLenum.GL_TEXTURE_2D 0 ]

/-- The initialiser of `params` at lines 199 to 207. -/
def tex_params (env : Env) (layout : mp_image) (desc : ra_imgfmt_desc) (n : Fin 4) :
    ra_tex_params :=
  { dimensions := 2,
    w := env.mp_image_plane_w layout n,
    h := env.mp_image_plane_h layout n,
    d := 1,
    format := desc.planes n,
    render_src := true,
    src_linear := true }

/-- The loop of lines 191 to 216 followed by `return 0`, from the value `n` of
the loop variable on, with `remaining` turns still to run. -/
def mapper_init_loop (H : Headers) (env : Env) (desc : ra_imgfmt_desc) :
    Nat → Nat → priv → Run priv Int
  | _, 0, p => ⟨[], p, .ok 0⟩
  | n, remaining + 1, p =>
    if h : n < 4 then
      let i : Fin 4 := ⟨n, h⟩
      let calls := configure_texture (p.gl_textures i)
      let params := tex_params env p.layout desc i
      match params.format with
      | none => ⟨calls, p, .error Fault.null_dereference⟩
      | some format =>
        if format.ctype ≠ H.RA_CTYPE_UNORM then
          ⟨calls, p, .ok 1⟩
        else
          let t := env.ra_create_wrapped_tex params (p.gl_textures i)
          let p : priv := { p with tex := Function.update p.tex i t }
          let calls := calls ++ [Call.ra_create_wrapped_tex params (p.gl_textures i)]
          match t with
          | none => ⟨calls, p, .ok 1⟩
          | some _ => (mapper_init_loop H env desc (n + 1) remaining p).after calls
    else
      ⟨[], p, .error Fault.out_of_bounds⟩

/-- The function `drmprime_gl_mapper_init` (lines 157 to 219).  The session
state is written through `p = mapper->owner->priv`. -/
def drmprime_gl_mapper_init (H : Headers) (env : Env) (mapper : ra_hwdec_mapper) :
    Run ra_hwdec_mapper Int :=
  let p : priv := mapper.owner.priv
  let mapper : ra_hwdec_mapper := { mapper with dst_params := mapper.src_params }
  let mapper : ra_hwdec_mapper :=
    { mapper with dst_params := { mapper.dst_params with imgfmt := H.IMGFMT_NV12 } }
  let mapper : ra_hwdec_mapper :=
    { mapper with dst_params := { mapper.dst_params with hw_subfmt := 0 } }
  match env.ra_get_imgfmt_desc mapper.dst_params.imgfmt with
  | none => ⟨[], mapper, .ok (-1)⟩
  | some desc =>
    let p : priv := { p with num_planes := desc.num_planes }
    let p : priv := { p with layout := env.mp_image_set_params p.layout mapper.dst_params }
    let p : priv := { p with CreateImageKHR := env.eglGetProcAddress "eglCreateImageKHR" }
    let p : priv := { p with DestroyImageKHR := env.eglGetProcAddress "eglDestroyImageKHR" }
    let p : priv :=
      { p with EGLImageTargetTexture2DOES := env.eglGetProcAddress "glEGLImageTargetTexture2DOES" }
    if p.CreateImageKHR = 0 ∨ p.DestroyImageKHR = 0 ∨ p.EGLImageTargetTexture2DOES = 0 then
      ⟨[], { mapper with owner := { mapper.owner with priv := p } }, .ok 1⟩
    else
      let p : priv := { p with gl_textures := env.GenTextures }
      let r := mapper_init_loop H env desc 0 desc.num_planes.toNat p
      { calls := Call.GenTextures 4 (arr4 p.gl_textures) :: r.calls,
        state := { mapper with owner := { mapper.owner with priv := r.state } },
        result := r.result }

/-! ## `drmprime_gl_mapper_uninit` -/

/-- One turn of the loop of lines 228 to 231.  `ra_tex_free` releases the
texture object and clears the pointer it is given. -/
def mapper_uninit_step (acc : List Call × priv) (n : Fin 4) : List Call × priv :=
  let p : priv := { acc.2 with gl_textures := Function.update acc.2.gl_textures n 0 }
  (acc.1 ++ [Call.ra_tex_free (p.tex n)], { p with tex := Function.update p.tex n none })

/-- The function `drmprime_gl_mapper_uninit` (lines 221 to 234).  It works on
`p = mapper->priv`.  The state returned is the block as it is when it is
handed to `talloc_free`. -/
def drmprime_gl_mapper_uninit (mapper : ra_hwdec_mapper) : Run ra_hwdec_mapper Unit :=
  match mapper.priv with
  | none => ⟨[], mapper, .ok ()⟩
  | some p =>
    let r := [0, 1, 2, 3].foldl mapper_uninit_step
      ([Call.DeleteTextures 4 (arr4 p.gl_textures)], p)
    ⟨r.1 ++ [Call.talloc_free], { mapper with priv := some r.2 }, .ok ()⟩

/-! ## `drmprime_gl_mapper_map` -/

/-- The state the loop of `drmprime_gl_mapper_map` works on: `*p_mapper` and
`mapper->tex`. -/
structure MapState where
  p_mapper : priv
  tex : Fin 4 → Option ra_tex

/-- Lines 261 to 274 for plane `n`: the attribute list, given the frame
descriptor and the pointer `p_mapper->tex[n]`. -/
def plane_attribs (H : Headers) (desc : AVDRMFrameDescriptor) (n : Fin 4)
    (tex : Option ra_tex) : Except Fault AttribBuf :=
  match tex with
  | none => .error Fault.null_dereference
  | some t => build_attribs H desc n t.params.w t.params.h

/-- The loop of lines 260 to 285 followed by lines 286 and 287, from the value
`n` of the loop variable on, with `remaining` turns still to run. -/
def mapper_map_loop (H : Headers) (env : Env) :
    Nat → Nat → MapState → Run MapState Int
  | _, 0, s => ⟨[Call.BindTexture GLenum.GL_TEXTURE_2D 0], s, .ok 0⟩
  | n, remaining + 1, s =>
    match s.p_mapper.desc with
    | none => ⟨[], s, .error Fault.null_dereference⟩
    | some desc =>
      if h : n < 4 then
        let i : Fin 4 := ⟨n, h⟩
        match plane_attribs H desc i (s.p_mapper.tex i) with
        | .error f => ⟨[], s, .error f⟩
        | .ok b =>
          let image := env.CreateImageKHR n b.attribs
          let calls := [Call.CreateImageKHR s.p_mapper.CreateImageKHR env.eglGetCurrentDisplay
                          EGL_LINUX_DMA_BUF_EXT b.attribs]
          let p : priv := { s.p_mapper with images := Function.update s.p_mapper.images i image }
          if image = 0 then
            ⟨calls, { s with p_mapper := p }, .ok 1⟩
          else
            let calls := calls ++
              [ Call.BindTexture GLenum.GL_TEXTURE_2D (p.gl_textures i),
                Call.EGLImageTargetTexture2DOES p.EGLImageTargetTexture2DOES
                  GLenum.GL_TEXTURE_2D (p.images i) ]
            let s : MapState := { p_mapper := p, tex := Function.update s.tex i (p.tex i) }
            (mapper_map_loop H env (n + 1) remaining s).after calls
      else
        ⟨[], s, .error Fault.out_of_bounds⟩

/-- The function `drmprime_gl_mapper_map` (lines 253 to 288).  It works on
`p_mapper = mapper->priv`. -/
def drmprime_gl_mapper_map (H : Headers) (env : Env) (mapper : ra_hwdec_mapper) :
    Run ra_hwdec_mapper Int :=
  match mapper.priv with
  | none => ⟨[], mapper, .error Fault.null_dereference⟩
  | some p_mapper =>
    match mapper.src with
    | none => ⟨[], mapper, .error Fault.null_dereference⟩
    | some src =>
      let p_mapper : priv := { p_mapper with desc := src.planes0 }
      let r := mapper_map_loop H env 0 p_mapper.num_planes.toNat ⟨p_mapper, mapper.tex⟩
      { calls := r.calls,
        state := { mapper with priv := some r.state.p_mapper, tex := r.state.tex },
        result := r.result }

/-! ## `drmprime_gl_mapper_unmap` -/

/-- One turn of the loop of lines 295 to 299.  The value the destroy entry
point returns is discarded. -/
def mapper_unmap_step (env : Env) (acc : List Call × priv) (n : Fin 4) : List Call × priv :=
  let p := acc.2
  let calls :=
    if p.images n ≠ 0 then
      let _discarded := env.DestroyImageKHR (p.images n)
      acc.1 ++ [Call.DestroyImageKHR p.DestroyImageKHR env.eglGetCurrentDisplay (p.images n)]
    else acc.1
  (calls, { p with images := Function.update p.images n 0 })

/-- The function `drmprime_gl_mapper_unmap` (lines 290 to 301).  It works on
`p_mapper = mapper->priv`. -/
def drmprime_gl_mapper_unmap (env : Env) (mapper : ra_hwdec_mapper) :
    Run ra_hwdec_mapper Unit :=
  match mapper.priv with
  | none => ⟨[], mapper, .ok ()⟩
  | some p_mapper =>
    let r := [0, 1, 2, 3].foldl (mapper_unmap_step env) ([], p_mapper)
    ⟨r.1, { mapper with priv := some r.2 }, .ok ()⟩

/-! ## Concrete inputs -/

/-- Values for the header constants: `EGL_NONE`, `EGL_WIDTH` and `EGL_HEIGHT`
as the Khronos registry assigns them, bit 10 for `MPGL_CAP_TEX_RG`, and small
numbers for the two enumerators. -/
def sample_headers : Headers :=
  { EGL_NONE := 0x3038, EGL_WIDTH := 0x3057, EGL_HEIGHT := 0x3056,
    MPGL_CAP_TEX_RG := 1024, IMGFMT_NV12 := 12, RA_CTYPE_UNORM := 1 }

/-- A frame descriptor with one buffer object (file descriptor 7) and one
layer of `k` sub-planes in that object. -/
def sample_frame (k : Int) : AVDRMFrameDescriptor :=
  { nb_objects := 1,
    objects := fun _ => ⟨7⟩,
    nb_layers := 1,
    layers := fun _ =>
      { format := 0x32315559,
        nb_planes := k,
        planes := fun i =>
          match i with
          | 0 => ⟨0, 0, 1920⟩
          | 1 => ⟨0, 2073600, 960⟩
          | 2 => ⟨0, 2592000, 960⟩
          | 3 => ⟨0, 3110400, 960⟩ } }

/-- A wrapped texture of 1920 by 1080 texels. -/
def sample_tex (id : Nat) : ra_tex :=
  { params := { dimensions := 2, w := 1920, h := 1080, d := 1, format := some ⟨1⟩,
                render_src := true, src_linear := true },
    id := id }

/-- A session block with `num_planes` planes whose textures and entry points
are in place. -/
def sample_session (num_planes : Int) : priv :=
  { priv.zeroed with
    num_planes := num_planes,
    gl_textures := fun i => i.val + 1,
    CreateImageKHR := 101, DestroyImageKHR := 102, EGLImageTargetTexture2DOES := 103,
    tex := fun i => some (sample_tex i.val) }

/-- A mapper with the private block `p` whose source image carries
`sample_frame k`; the owner's private block is zeroed. -/
def sample_mapper (p : Option priv) (k : Int) : ra_hwdec_mapper :=
  { owner := { log := 0, driver_name := "drmprime-egl", priv := priv.zeroed },
    priv := p,
    src_params := ⟨99, 5, 1920, 1080⟩,
    dst_params := ⟨0, 0, 0, 0⟩,
    src := some { params := ⟨99, 5, 1920, 1080⟩, planes0 := some (sample_frame k) },
    tex := fun _ => none }

/-- A graphics stack in which every query succeeds: the planes of the
destination format are `planes`, texture names are 1 to 4 and the image of
plane `n` is `n + 1`. -/
def sample_env (planes : Fin 4 → Option ra_format) : Env :=
  { ra_is_gl := true,
    eglGetCurrentContext := 1,
    eglGetCurrentDisplay := 1,
    eglQueryString := some "EGL_EXT_image_dma_buf_import EGL_KHR_image_base",
    gl_extensions := some "GL_OES_EGL_image",
    gl_mpgl_caps := 1024,
    gl_check_extension := fun _ _ => true,
    av_hwdevice_ctx_create := (0, 1),
    ra_get_imgfmt_desc := fun _ => some { num_planes := 2, planes := planes },
    mp_image_set_params := fun img params => { img with params := params },
    mp_image_plane_w := fun img n => if n = 0 then img.params.w else img.params.w / 2,
    mp_image_plane_h := fun img n => if n = 0 then img.params.h else img.params.h / 2,
    eglGetProcAddress := fun _ => 100,
    GenTextures := fun i => i.val + 1,
    ra_create_wrapped_tex := fun params t => some ⟨params, t⟩,
    CreateImageKHR := fun n _ => n + 1,
    DestroyImageKHR := fun _ => true }

/-- The planes of NV12: both of normalized unsigned type. -/
def nv12_planes : Fin 4 → Option ra_format :=
  fun i => if i.val < 2 then some ⟨1⟩ else none

/-- Whether a call is the creation of an image. -/
def Call.isCreateImage : Call → Bool
  | .CreateImageKHR _ _ _ _ => true
  | _ => false

/-- Whether a call wraps a texture name as a texture object. -/
def Call.isWrap : Call → Bool
  | .ra_create_wrapped_tex _ _ => true
  | _ => false

/-- Whether a call generates texture names. -/
def Call.isGenTextures : Call → Bool
  | .GenTextures _ _ => true
  | _ => false

/-- The graphics stack of `sample_env nv12_planes`, except that the create
entry point returns the null image for destination plane `k`. -/
def sample_env_null_at (k : Nat) : Env :=
  { sample_env nv12_planes with
    CreateImageKHR := fun n _ => if n = k then 0 else n + 1 }

/-- Planes that are all of a component type other than `RA_CTYPE_UNORM` of
`sample_headers`. -/
def float_planes : Fin 4 → Option ra_format :=
  fun _ => some ⟨2⟩

/-- Planes of which the first is of type `RA_CTYPE_UNORM` of `sample_headers`
and the others are not. -/
def mixed_planes : Fin 4 → Option ra_format :=
  fun i => if i.val = 0 then some ⟨1⟩ else some ⟨2⟩

/-! ## Theorems -/

theorem toInt_of_nonneg (q : ℚ) (h : 0 ≤ q) : toInt q = ⌊q⌋ := by
  unfold toInt
  rw [Rat.floor_def, Int.tdiv_eq_ediv (Rat.num_nonneg.mpr h) (by positivity)]

theorem scale_ratio_pos (dw dh sw sh : Int) (hsw : 0 < sw) (hsh : 0 < sh)
    (hdw : 0 < dw) (hdh : 0 < dh) : 0 < scale_ratio dw dh sw sh := by
  have h1 : (0 : ℚ) < sw := by exact_mod_cast hsw
  have h2 : (0 : ℚ) < sh := by exact_mod_cast hsh
  have h3 : (0 : ℚ) < dw := by exact_mod_cast hdw
  have h4 : (0 : ℚ) < dh := by exact_mod_cast hdh
  unfold scale_ratio
  simp only
  split_ifs
  · exact div_pos h3 h1
  · exact div_pos h4 h2

theorem scale_ratio_mul_w_le (dw dh sw sh : Int) (hsw : 0 < sw) :
    scale_ratio dw dh sw sh * (sw : ℚ) ≤ dw := by
  have h1 : (0 : ℚ) < sw := by exact_mod_cast hsw
  unfold scale_ratio
  simp only
  split_ifs with h
  · rw [div_mul_cancel₀ _ h1.ne']
  · push_neg at h
    have := mul_le_mul_of_nonneg_right h.le h1.le
    rwa [div_mul_cancel₀ _ h1.ne'] at this

theorem scale_ratio_mul_h_le (dw dh sw sh : Int) (hsh : 0 < sh) :
    scale_ratio dw dh sw sh * (sh : ℚ) ≤ dh := by
  have h2 : (0 : ℚ) < sh := by exact_mod_cast hsh
  unfold scale_ratio
  simp only
  split_ifs with h
  · have := mul_le_mul_of_nonneg_right h h2.le
    rwa [div_mul_cancel₀ _ h2.ne'] at this
  · rw [div_mul_cancel₀ _ h2.ne']

/-- Centering on one axis: for a scaled extent `r` with `0 ≤ r ≤ d`, the
truncated extent and the truncated half of the remainder. -/
theorem center_axis (d : Int) (r : ℚ) (h0 : 0 ≤ r) (hd : r ≤ d) :
    toInt 0 + toInt ((d - r) / 2) = toInt ((d - r) / 2) ∧
    0 ≤ d - toInt r - 2 * toInt ((d - r) / 2) ∧
    d - toInt r - 2 * toInt ((d - r) / 2) ≤ 2 ∧
    0 ≤ toInt ((d - r) / 2) ∧ 0 ≤ toInt r ∧
    toInt r + toInt ((d - r) / 2) ≤ d := by
  have hh : (0 : ℚ) ≤ (d - r) / 2 := by linarith
  rw [toInt_of_nonneg r h0, toInt_of_nonneg _ hh, toInt_of_nonneg 0 le_rfl]
  have a1 := Int.floor_le r
  have a2 := Int.lt_floor_add_one r
  have b1 := Int.floor_le ((d - r) / 2)
  have b2 := Int.lt_floor_add_one ((d - r) / 2)
  have c1 : (0 : Int) ≤ ⌊r⌋ := Int.floor_nonneg.mpr h0
  have c2 : (0 : Int) ≤ ⌊(d - r) / 2⌋ := Int.floor_nonneg.mpr hh
  refine ⟨by simp, ?_, ?_, c2, c1, ?_⟩
  · have : (0 : ℚ) ≤ ((d - ⌊r⌋ - 2 * ⌊(d - r) / 2⌋ : Int) : ℚ) := by push_cast; linarith
    exact_mod_cast this
  · have : ((d - ⌊r⌋ - 2 * ⌊(d - r) / 2⌋ : Int) : ℚ) < 3 := by push_cast; linarith
    have : d - ⌊r⌋ - 2 * ⌊(d - r) / 2⌋ < 3 := by exact_mod_cast this
    omega
  · have : ((⌊r⌋ + ⌊(d - r) / 2⌋ : Int) : ℚ) ≤ d := by push_cast; linarith
    exact_mod_cast this

/-- C8: with exact rational arithmetic in place of `double` and truncation
toward zero at each conversion to `int`, for positive source and display sizes
and the full source rectangle `(0, 0, source_w, source_h)`, `scale_dst_rect`
puts the left and top edges at `offset_x` and `offset_y`, the space left over by
the scaled width (height) differs from `2 * offset_x` (`2 * offset_y`) by at
most 2, and the rectangle lies inside the display. -/
theorem scale_dst_rect_centered (source_w source_h display_w display_h : Int)
    (hsw : 0 < source_w) (hsh : 0 < source_h)
    (hdw : 0 < display_w) (hdh : 0 < display_h) :
    (scale_dst_rect display_w display_h source_w source_h ⟨0, 0, source_w, source_h⟩).x0
        = scale_offset_x display_w display_h source_w source_h ∧
    (scale_dst_rect display_w display_h source_w source_h ⟨0, 0, source_w, source_h⟩).y0
        = scale_offset_y display_w display_h source_w source_h ∧
    |display_w
        - ((scale_dst_rect display_w display_h source_w source_h ⟨0, 0, source_w, source_h⟩).x1
          - (scale_dst_rect display_w display_h source_w source_h ⟨0, 0, source_w, source_h⟩).x0)
        - 2 * scale_offset_x display_w display_h source_w source_h| ≤ 2 ∧
    |display_h
        - ((scale_dst_rect display_w display_h source_w source_h ⟨0, 0, source_w, source_h⟩).y1
          - (scale_dst_rect display_w display_h source_w source_h ⟨0, 0, source_w, source_h⟩).y0)
        - 2 * scale_offset_y display_w display_h source_w source_h| ≤ 2 ∧
    0 ≤ (scale_dst_rect display_w display_h source_w source_h ⟨0, 0, source_w, source_h⟩).x0 ∧
    (scale_dst_rect display_w display_h source_w source_h ⟨0, 0, source_w, source_h⟩).x0
      ≤ (scale_dst_rect display_w display_h source_w source_h ⟨0, 0, source_w, source_h⟩).x1 ∧
    (scale_dst_rect display_w display_h source_w source_h ⟨0, 0, source_w, source_h⟩).x1
      ≤ display_w ∧
    0 ≤ (scale_dst_rect display_w display_h source_w source_h ⟨0, 0, source_w, source_h⟩).y0 ∧
    (scale_dst_rect display_w display_h source_w source_h ⟨0, 0, source_w, source_h⟩).y0
      ≤ (scale_dst_rect display_w display_h source_w source_h ⟨0, 0, source_w, source_h⟩).y1 ∧
    (scale_dst_rect display_w display_h source_w source_h ⟨0, 0, source_w, source_h⟩).y1
      ≤ display_h := by
  have hr := scale_ratio_pos display_w display_h source_w source_h hsw hsh hdw hdh
  have h1 : (0 : ℚ) < source_w := by exact_mod_cast hsw
  have h2 : (0 : ℚ) < source_h := by exact_mod_cast hsh
  have hx := center_axis display_w
    (scale_ratio display_w display_h source_w source_h * (source_w : ℚ))
    (by positivity) (scale_ratio_mul_w_le display_w display_h source_w source_h hsw)
  have hy := center_axis display_h
    (scale_ratio display_w display_h source_w source_h * (source_h : ℚ))
    (by positivity) (scale_ratio_mul_h_le display_w display_h source_w source_h hsh)
  obtain ⟨x1, x2, x3, x4, x5, x6⟩ := hx
  obtain ⟨y1, y2, y3, y4, y5, y6⟩ := hy
  simp only [scale_dst_rect, scale_offset_x, scale_offset_y, Int.cast_zero, zero_mul,
    mul_comm (source_w : ℚ), mul_comm (source_h : ℚ)]
  refine ⟨x1, y1, ?_, ?_, ?_, ?_, ?_, ?_, ?_, ?_⟩
  · rw [abs_le]; constructor <;> omega
  · rw [abs_le]; constructor <;> omega
  · omega
  · omega
  · omega
  · omega
  · omega
  · omega

/-- C8, the example of the specification: a 1920x800 source in an 800x480
display gives width 800, height 333, `offset_x` 0 and `offset_y` 73. -/
theorem scale_dst_rect_centered_witness :
    ((0 : Int) < 1920 ∧ (0 : Int) < 800 ∧ (0 : Int) < 800 ∧ (0 : Int) < 480) ∧
    ((scale_dst_rect 800 480 1920 800 ⟨0, 0, 1920, 800⟩).x0 = scale_offset_x 800 480 1920 800 ∧
     (scale_dst_rect 800 480 1920 800 ⟨0, 0, 1920, 800⟩).y0 = scale_offset_y 800 480 1920 800 ∧
     |800 - ((scale_dst_rect 800 480 1920 800 ⟨0, 0, 1920, 800⟩).x1
          - (scale_dst_rect 800 480 1920 800 ⟨0, 0, 1920, 800⟩).x0)
        - 2 * scale_offset_x 800 480 1920 800| ≤ 2 ∧
     |480 - ((scale_dst_rect 800 480 1920 800 ⟨0, 0, 1920, 800⟩).y1
          - (scale_dst_rect 800 480 1920 800 ⟨0, 0, 1920, 800⟩).y0)
        - 2 * scale_offset_y 800 480 1920 800| ≤ 2 ∧
     0 ≤ (scale_dst_rect 800 480 1920 800 ⟨0, 0, 1920, 800⟩).x0 ∧
     (scale_dst_rect 800 480 1920 800 ⟨0, 0, 1920, 800⟩).x0
       ≤ (scale_dst_rect 800 480 1920 800 ⟨0, 0, 1920, 800⟩).x1 ∧
     (scale_dst_rect 800 480 1920 800 ⟨0, 0, 1920, 800⟩).x1 ≤ 800 ∧
     0 ≤ (scale_dst_rect 800 480 1920 800 ⟨0, 0, 1920, 800⟩).y0 ∧
     (scale_dst_rect 800 480 1920 800 ⟨0, 0, 1920, 800⟩).y0
       ≤ (scale_dst_rect 800 480 1920 800 ⟨0, 0, 1920, 800⟩).y1 ∧
     (scale_dst_rect 800 480 1920 800 ⟨0, 0, 1920, 800⟩).y1 ≤ 480) ∧
    (scale_dst_rect 800 480 1920 800 ⟨0, 0, 1920, 800⟩ = ⟨0, 73, 800, 406⟩ ∧
     scale_offset_x 800 480 1920 800 = 0 ∧ scale_offset_y 800 480 1920 800 = 73 ∧
     (scale_dst_rect 800 480 1920 800 ⟨0, 0, 1920, 800⟩).x1
       - (scale_dst_rect 800 480 1920 800 ⟨0, 0, 1920, 800⟩).x0 = 800 ∧
     (scale_dst_rect 800 480 1920 800 ⟨0, 0, 1920, 800⟩).y1
       - (scale_dst_rect 800 480 1920 800 ⟨0, 0, 1920, 800⟩).y0 = 333) :=
  ⟨by decide, scale_dst_rect_centered 1920 800 800 480 (by decide) (by decide) (by decide)
      (by decide),
    by norm_num [scale_dst_rect, scale_offset_x, scale_offset_y, scale_ratio, toInt]; decide⟩


/-- C1: the bound check of `ADD_ATTRIB` does not hold at every append when a
layer has three sub-planes.  For two sub-planes the nine appends succeed and
leave `num_attribs = 18`; from that state every further `ADD_ATTRIB` fails its
assertion, so the list for a layer of three sub-planes is never completed. -/
theorem build_attribs_three_planes_assertion :
    (∃ b, build_attribs sample_headers (sample_frame 2) 0 1920 1080 = .ok b ∧
        b.num_attribs = 18 ∧
        ∀ name value, ADD_ATTRIB sample_headers b name value
          = .error Fault.assertion_failed) ∧
    build_attribs sample_headers (sample_frame 3) 0 1920 1080
      = .error Fault.assertion_failed ∧
    build_attribs sample_headers (sample_frame 4) 0 1920 1080
      = .error Fault.assertion_failed :=
  ⟨⟨_, rfl, rfl, fun _ _ => rfl⟩, rfl, rfl⟩

/-- C2: for a destination plane whose layer has three sub-planes,
`drmprime_gl_mapper_map` stops at the assertion of `ADD_ATTRIB` and passes no
attribute list to the image-create entry point at all. -/
theorem mapper_map_three_planes_no_list :
    (drmprime_gl_mapper_map sample_headers (sample_env nv12_planes)
        (sample_mapper (some (sample_session 1)) 3)).result
      = .error Fault.assertion_failed ∧
    (drmprime_gl_mapper_map sample_headers (sample_env nv12_planes)
        (sample_mapper (some (sample_session 1)) 3)).calls = [] :=
  ⟨rfl, rfl⟩

/-- C4: on a mapper whose own private block is zeroed, `drmprime_gl_mapper_init`
succeeds for the two-plane destination layout and `drmprime_gl_mapper_map` then
succeeds as well, yet no image slot is filled: the session holds 0 image
handles, not 2. -/
theorem mapper_init_map_imports_nothing :
    (drmprime_gl_mapper_init sample_headers (sample_env nv12_planes)
        (sample_mapper (some priv.zeroed) 2)).result = .ok 0 ∧
    (drmprime_gl_mapper_init sample_headers (sample_env nv12_planes)
        (sample_mapper (some priv.zeroed) 2)).state.owner.priv.num_planes = 2 ∧
    (drmprime_gl_mapper_map sample_headers (sample_env nv12_planes)
        (drmprime_gl_mapper_init sample_headers (sample_env nv12_planes)
          (sample_mapper (some priv.zeroed) 2)).state).result = .ok 0 ∧
    (drmprime_gl_mapper_map sample_headers (sample_env nv12_planes)
        (drmprime_gl_mapper_init sample_headers (sample_env nv12_planes)
          (sample_mapper (some priv.zeroed) 2)).state).calls
      = [Call.BindTexture GLenum.GL_TEXTURE_2D 0] ∧
    ((drmprime_gl_mapper_map sample_headers (sample_env nv12_planes)
        (drmprime_gl_mapper_init sample_headers (sample_env nv12_planes)
          (sample_mapper (some priv.zeroed) 2)).state).state.priv.map
        (fun p => arr4 p.images)) = some [0, 0, 0, 0] :=
  ⟨rfl, rfl, rfl, rfl, rfl⟩

/-- C5: on a mapper whose own private block is zeroed, `drmprime_gl_mapper_init`
generates the texture names 1, 2, 3, 4 and `drmprime_gl_mapper_uninit` passes
the names 0, 0, 0, 0 to the delete-textures call: none of the generated names
is deleted. -/
theorem mapper_init_uninit_leaves_textures :
    (drmprime_gl_mapper_init sample_headers (sample_env nv12_planes)
        (sample_mapper (some priv.zeroed) 2)).result = .ok 0 ∧
    (drmprime_gl_mapper_init sample_headers (sample_env nv12_planes)
        (sample_mapper (some priv.zeroed) 2)).calls.filter Call.isGenTextures
      = [Call.GenTextures 4 [1, 2, 3, 4]] ∧
    (drmprime_gl_mapper_uninit
        (drmprime_gl_mapper_init sample_headers (sample_env nv12_planes)
          (sample_mapper (some priv.zeroed) 2)).state).calls
      = [Call.DeleteTextures 4 [0, 0, 0, 0],
         Call.ra_tex_free none, Call.ra_tex_free none,
         Call.ra_tex_free none, Call.ra_tex_free none,
         Call.talloc_free] :=
  ⟨rfl, rfl, rfl⟩

/-- C6: `init` returns 1 exactly when the render abstraction is not OpenGL, or
there is no current EGL context, or the extension string cannot be queried, or
one of the three extension tokens is missing, or the two-component texture
capability is absent; otherwise it returns 0 whatever the device-open call
returns, and the device is registered (once) exactly when the checks pass and
the device-open call returns 0. -/
theorem init_capability_gating (H : Headers) (env : Env) (hw : ra_hwdec) :
    ((init H env hw).result = .ok 1 ↔
      (env.ra_is_gl = false ∨ env.eglGetCurrentContext = 0 ∨ env.eglQueryString = none ∨
       env.gl_check_extension env.eglQueryString "EGL_EXT_image_dma_buf_import" = false ∨
       env.gl_check_extension env.eglQueryString "EGL_KHR_image_base" = false ∨
       env.gl_check_extension env.gl_extensions "GL_OES_EGL_image" = false ∨
       env.gl_mpgl_caps &&& H.MPGL_CAP_TEX_RG = 0)) ∧
    ((init H env hw).result = .ok 0 ↔
      ¬ (env.ra_is_gl = false ∨ env.eglGetCurrentContext = 0 ∨ env.eglQueryString = none ∨
       env.gl_check_extension env.eglQueryString "EGL_EXT_image_dma_buf_import" = false ∨
       env.gl_check_extension env.eglQueryString "EGL_KHR_image_base" = false ∨
       env.gl_check_extension env.gl_extensions "GL_OES_EGL_image" = false ∨
       env.gl_mpgl_caps &&& H.MPGL_CAP_TEX_RG = 0)) ∧
    ((init H env hw).calls
        = [Call.hwdec_devices_add ⟨hw.driver_name, env.av_hwdevice_ctx_create.2⟩] ↔
      ((init H env hw).result = .ok 0 ∧ env.av_hwdevice_ctx_create.1 = 0)) ∧
    ((init H env hw).calls = [] ↔
      ¬ ((init H env hw).result = .ok 0 ∧ env.av_hwdevice_ctx_create.1 = 0)) := by
  unfold init
  cases h1 : env.ra_is_gl
  · simp
  · by_cases h2 : env.eglGetCurrentContext = 0
    · simp [h2]
    · cases h3 : env.eglQueryString with
      | none => simp [h2]
      | some exts =>
        cases h4 : env.gl_check_extension (some exts) "EGL_EXT_image_dma_buf_import"
        · simp [h2, h4]
        · cases h5 : env.gl_check_extension (some exts) "EGL_KHR_image_base"
          · simp [h2, h4, h5]
          · cases h6 : env.gl_check_extension env.gl_extensions "GL_OES_EGL_image"
            · simp [h2, h4, h5, h6]
            · by_cases h7 : env.gl_mpgl_caps &&& H.MPGL_CAP_TEX_RG = 0
              · simp [h2, h4, h5, h6, h7]
              · by_cases h8 : env.av_hwdevice_ctx_create.1 = 0
                · simp [h2, h4, h5, h6, h7, h8]
                · simp [h2, h4, h5, h6, h7, h8]

/-- Clearing the four slots of an array one after the other clears the array. -/
theorem update4_zero (f : Fin 4 → Nat) :
    Function.update (Function.update (Function.update (Function.update f 0 0) 1 0) 2 0) 3 0
      = fun _ => 0 := by
  funext i
  fin_cases i <;> simp [Function.update]

/-- The loop of `drmprime_gl_mapper_unmap`: the destroy calls it makes and the
block it leaves. -/
theorem unmap_fold (env : Env) (p : priv) :
    [0, 1, 2, 3].foldl (mapper_unmap_step env) ([], p)
      = (((arr4 p.images).filter (fun img => img ≠ 0)).map
          (fun img => Call.DestroyImageKHR p.DestroyImageKHR env.eglGetCurrentDisplay img),
         { p with images := fun _ => 0 }) := by
  simp only [List.foldl, mapper_unmap_step, arr4]
  have h := update4_zero p.images
  by_cases h0 : p.images 0 = 0 <;> by_cases h1 : p.images 1 = 0 <;>
    by_cases h2 : p.images 2 = 0 <;> by_cases h3 : p.images 3 = 0 <;>
    simp [h0, h1, h2, h3, h]

/-- The function `drmprime_gl_mapper_unmap` on a mapper with a private block. -/
theorem unmap_some (env : Env) (owner : ra_hwdec) (p : priv) (sp dp : mp_image_params)
    (src : Option mp_image) (tex : Fin 4 → Option ra_tex) :
    drmprime_gl_mapper_unmap env ⟨owner, some p, sp, dp, src, tex⟩
      = ⟨((arr4 p.images).filter (fun img => img ≠ 0)).map
            (fun img => Call.DestroyImageKHR p.DestroyImageKHR env.eglGetCurrentDisplay img),
          ⟨owner, some { p with images := fun _ => 0 }, sp, dp, src, tex⟩, .ok ()⟩ := by
  unfold drmprime_gl_mapper_unmap
  simp only
  rw [unmap_fold]

/-- C3: for every session state, `drmprime_gl_mapper_unmap` calls the destroy
entry point once for each non-null image slot, in slot order and with the
handle of that slot, whatever the entry point returns, and leaves all four
slots null and everything else as it was; a second call right after makes no
destroy call and leaves the state as the first call left it.  With a null
private pointer both calls do nothing. -/
theorem mapper_unmap_idempotent (env : Env) (mapper : ra_hwdec_mapper) :
    (drmprime_gl_mapper_unmap env mapper).calls
      = (mapper.priv.map (fun p =>
          ((arr4 p.images).filter (fun img => img ≠ 0)).map
            (fun img => Call.DestroyImageKHR p.DestroyImageKHR env.eglGetCurrentDisplay img))).getD
          [] ∧
    (drmprime_gl_mapper_unmap env mapper).state
      = { mapper with priv := mapper.priv.map (fun p => { p with images := fun _ => 0 }) } ∧
    (drmprime_gl_mapper_unmap env mapper).result = .ok () ∧
    (drmprime_gl_mapper_unmap env (drmprime_gl_mapper_unmap env mapper).state).calls = [] ∧
    (drmprime_gl_mapper_unmap env (drmprime_gl_mapper_unmap env mapper).state).state
      = (drmprime_gl_mapper_unmap env mapper).state ∧
    (drmprime_gl_mapper_unmap env (drmprime_gl_mapper_unmap env mapper).state).result
      = .ok () := by
  obtain ⟨owner, pr, sp, dp, src, tex⟩ := mapper
  cases pr with
  | none => simp [drmprime_gl_mapper_unmap]
  | some p => simp [unmap_some, arr4]

/-- The loop of `drmprime_gl_mapper_init` writes no field of the block other
than `tex`. -/
theorem mapper_init_loop_state (H : Headers) (env : Env) (desc : ra_imgfmt_desc)
    (remaining : Nat) : ∀ (n : Nat) (p : priv),
    (mapper_init_loop H env desc n remaining p).state
      = { p with tex := (mapper_init_loop H env desc n remaining p).state.tex } := by
  induction remaining with
  | zero => intro n p; simp [mapper_init_loop]
  | succ r ih =>
    intro n p
    unfold mapper_init_loop
    by_cases h : n < 4
    · simp only [h, dite_true]
      cases hf : (tex_params env p.layout desc ⟨n, h⟩).format with
      | none => simp
      | some format =>
        by_cases hc : format.ctype ≠ H.RA_CTYPE_UNORM
        · simp [hc]
        · simp only [hc, if_false]
          cases ht : env.ra_create_wrapped_tex (tex_params env p.layout desc ⟨n, h⟩)
              (p.gl_textures ⟨n, h⟩) with
          | none => simp
          | some t =>
            simp only [Run.after]
            rw [ih]
    · simp [h]

/-- C10: `drmprime_gl_mapper_init` changes nothing of the mapper but
`dst_params` and the private block of the owning device: the mapper's own
private block, its source image and its textures are as before.  When the
format lookup succeeds the plane count and the three entry points are in the
owner's block.  So on a mapper whose own block is zeroed the plane count read
by `drmprime_gl_mapper_map` is still 0 after init, and map imports no image
(its only call unbinds the texture) and returns 0. -/
theorem mapper_init_frame (H : Headers) (env : Env) (mapper : ra_hwdec_mapper) :
    (drmprime_gl_mapper_init H env mapper).state
      = { mapper with
          owner := (drmprime_gl_mapper_init H env mapper).state.owner,
          dst_params := (drmprime_gl_mapper_init H env mapper).state.dst_params } ∧
    (drmprime_gl_mapper_init H env mapper).state.priv = mapper.priv ∧
    (∀ desc, env.ra_get_imgfmt_desc H.IMGFMT_NV12 = some desc →
      (drmprime_gl_mapper_init H env mapper).state.owner.priv.num_planes = desc.num_planes ∧
      (drmprime_gl_mapper_init H env mapper).state.owner.priv.CreateImageKHR
        = env.eglGetProcAddress "eglCreateImageKHR" ∧
      (drmprime_gl_mapper_init H env mapper).state.owner.priv.DestroyImageKHR
        = env.eglGetProcAddress "eglDestroyImageKHR" ∧
      (drmprime_gl_mapper_init H env mapper).state.owner.priv.EGLImageTargetTexture2DOES
        = env.eglGetProcAddress "glEGLImageTargetTexture2DOES") ∧
    (∀ src, mapper.priv = some priv.zeroed → mapper.src = some src →
      (drmprime_gl_mapper_init H env mapper).state.priv.map (fun p => p.num_planes) = some 0 ∧
      (drmprime_gl_mapper_map H env (drmprime_gl_mapper_init H env mapper).state).result
        = .ok 0 ∧
      (drmprime_gl_mapper_map H env (drmprime_gl_mapper_init H env mapper).state).calls
        = [Call.BindTexture GLenum.GL_TEXTURE_2D 0] ∧
      (drmprime_gl_mapper_map H env (drmprime_gl_mapper_init H env mapper).state).state.priv.map
          (fun p => arr4 p.images) = some [0, 0, 0, 0]) := by
  have hstate : (drmprime_gl_mapper_init H env mapper).state
      = { mapper with
          owner := (drmprime_gl_mapper_init H env mapper).state.owner,
          dst_params := (drmprime_gl_mapper_init H env mapper).state.dst_params } := by
    unfold drmprime_gl_mapper_init
    simp only
    split
    · rfl
    · split <;> rfl
  refine ⟨hstate, by rw [hstate], ?_, ?_⟩
  · intro desc hd
    unfold drmprime_gl_mapper_init
    simp only [hd]
    split
    · simp
    · simp only
      rw [mapper_init_loop_state]
      simp
  · intro src hp hs
    rw [hstate]
    simp [drmprime_gl_mapper_map, hp, hs, priv.zeroed, mapper_map_loop, arr4]

/-- C10 at a concrete input: with every query answered and a two-plane
destination layout, init on a mapper with a zeroed block of its own returns 0
and records two planes in the owner's block, while the mapper's own block still
counts 0 planes and map returns 0 after the single unbinding call. -/
theorem mapper_init_frame_witness :
    (drmprime_gl_mapper_init sample_headers (sample_env nv12_planes)
        (sample_mapper (some priv.zeroed) 2)).result = .ok 0 ∧
    ((drmprime_gl_mapper_init sample_headers (sample_env nv12_planes)
        (sample_mapper (some priv.zeroed) 2)).state.owner.priv.num_planes = 2 ∧
      (drmprime_gl_mapper_init sample_headers (sample_env nv12_planes)
        (sample_mapper (some priv.zeroed) 2)).state.owner.priv.CreateImageKHR = 100 ∧
      (drmprime_gl_mapper_init sample_headers (sample_env nv12_planes)
        (sample_mapper (some priv.zeroed) 2)).state.owner.priv.DestroyImageKHR = 100 ∧
      (drmprime_gl_mapper_init sample_headers (sample_env nv12_planes)
        (sample_mapper (some priv.zeroed) 2)).state.owner.priv.EGLImageTargetTexture2DOES
          = 100) ∧
    ((drmprime_gl_mapper_init sample_headers (sample_env nv12_planes)
        (sample_mapper (some priv.zeroed) 2)).state.priv.map (fun p => p.num_planes)
        = some 0 ∧
      (drmprime_gl_mapper_map sample_headers (sample_env nv12_planes)
        (drmprime_gl_mapper_init sample_headers (sample_env nv12_planes)
          (sample_mapper (some priv.zeroed) 2)).state).result = .ok 0 ∧
      (drmprime_gl_mapper_map sample_headers (sample_env nv12_planes)
        (drmprime_gl_mapper_init sample_headers (sample_env nv12_planes)
          (sample_mapper (some priv.zeroed) 2)).state).calls
        = [Call.BindTexture GLenum.GL_TEXTURE_2D 0] ∧
      (drmprime_gl_mapper_map sample_headers (sample_env nv12_planes)
        (drmprime_gl_mapper_init sample_headers (sample_env nv12_planes)
          (sample_mapper (some priv.zeroed) 2)).state).state.priv.map
          (fun p => arr4 p.images) = some [0, 0, 0, 0]) :=
  ⟨rfl,
   (mapper_init_frame sample_headers (sample_env nv12_planes)
      (sample_mapper (some priv.zeroed) 2)).2.2.1 _ rfl,
   (mapper_init_frame sample_headers (sample_env nv12_planes)
      (sample_mapper (some priv.zeroed) 2)).2.2.2 _ rfl rfl⟩

/-- One turn of the loop of `drmprime_gl_mapper_map` in which the create entry
point returns null. -/
theorem map_loop_step_null (H : Headers) (env : Env) (desc : AVDRMFrameDescriptor)
    (a r : Nat) (h : a < 4) (s : MapState) (b : AttribBuf)
    (hdesc : s.p_mapper.desc = some desc)
    (hb : plane_attribs H desc ⟨a, h⟩ (s.p_mapper.tex ⟨a, h⟩) = .ok b)
    (hz : env.CreateImageKHR a b.attribs = 0) :
    mapper_map_loop H env a (r + 1) s
      = ⟨[Call.CreateImageKHR s.p_mapper.CreateImageKHR env.eglGetCurrentDisplay
            EGL_LINUX_DMA_BUF_EXT b.attribs],
          { s with p_mapper :=
              { s.p_mapper with images := Function.update s.p_mapper.images ⟨a, h⟩ 0 } },
          .ok 1⟩ := by
  rw [mapper_map_loop]
  simp only [hdesc, h, dite_true, hb, hz, if_true]

/-- One turn of the loop of `drmprime_gl_mapper_map` in which the create entry
point returns an image. -/
theorem map_loop_step_image (H : Headers) (env : Env) (desc : AVDRMFrameDescriptor)
    (a r : Nat) (h : a < 4) (s : MapState) (b : AttribBuf)
    (hdesc : s.p_mapper.desc = some desc)
    (hb : plane_attribs H desc ⟨a, h⟩ (s.p_mapper.tex ⟨a, h⟩) = .ok b)
    (hnz : env.CreateImageKHR a b.attribs ≠ 0) :
    mapper_map_loop H env a (r + 1) s
      = (mapper_map_loop H env (a + 1) r
          { p_mapper :=
              { s.p_mapper with
                images := Function.update s.p_mapper.images ⟨a, h⟩
                  (env.CreateImageKHR a b.attribs) },
            tex := Function.update s.tex ⟨a, h⟩ (s.p_mapper.tex ⟨a, h⟩) }).after
          [Call.CreateImageKHR s.p_mapper.CreateImageKHR env.eglGetCurrentDisplay
            EGL_LINUX_DMA_BUF_EXT b.attribs,
           Call.BindTexture GLenum.GL_TEXTURE_2D (s.p_mapper.gl_textures ⟨a, h⟩),
           Call.EGLImageTargetTexture2DOES s.p_mapper.EGLImageTargetTexture2DOES
             GLenum.GL_TEXTURE_2D (env.CreateImageKHR a b.attribs)] := by
  rw [mapper_map_loop]
  simp only [hdesc, h, dite_true, hb, hnz, if_false]
  simp [Function.update]

/-- The loop of `drmprime_gl_mapper_map` when the create entry point returns
null for plane `n` and an image for every earlier plane from `a` on. -/
theorem map_loop_abort (H : Headers) (env : Env) (desc : AVDRMFrameDescriptor)
    (n : Nat) (hn : n < 4) (remaining : Nat) : ∀ (a : Nat) (s : MapState),
    s.p_mapper.desc = some desc → a ≤ n → n < a + remaining →
    (∀ i : Fin 4, a ≤ i.val → i.val < n →
      ∃ b, plane_attribs H desc i (s.p_mapper.tex i) = .ok b ∧
        env.CreateImageKHR i.val b.attribs ≠ 0) →
    (∃ b, plane_attribs H desc ⟨n, hn⟩ (s.p_mapper.tex ⟨n, hn⟩) = .ok b ∧
        env.CreateImageKHR n b.attribs = 0) →
    (mapper_map_loop H env a remaining s).result = .ok 1 ∧
    ((mapper_map_loop H env a remaining s).calls.filter Call.isCreateImage).length
      = n + 1 - a ∧
    (mapper_map_loop H env a remaining s).state.p_mapper
      = { s.p_mapper with
          images := (mapper_map_loop H env a remaining s).state.p_mapper.images } ∧
    (∀ i : Fin 4, (i.val < a ∨ n < i.val) →
      (mapper_map_loop H env a remaining s).state.p_mapper.images i = s.p_mapper.images i) ∧
    (∀ i : Fin 4, a ≤ i.val → i.val < n →
      ∃ b, plane_attribs H desc i (s.p_mapper.tex i) = .ok b ∧
        (mapper_map_loop H env a remaining s).state.p_mapper.images i
          = env.CreateImageKHR i.val b.attribs) ∧
    (mapper_map_loop H env a remaining s).state.p_mapper.images ⟨n, hn⟩ = 0 := by
  induction remaining with
  | zero => intro a s _ h1 h2; omega
  | succ r ih =>
    intro a s hdesc han hlt hprev hfail
    have ha4 : a < 4 := by omega
    by_cases hEq : a = n
    · subst hEq
      obtain ⟨b, hb, hz⟩ := hfail
      rw [map_loop_step_null H env desc a r hn s b hdesc hb hz]
      refine ⟨rfl, by simp [Call.isCreateImage], rfl, ?_, ?_, by simp⟩
      · intro i hi
        have : i ≠ ⟨a, hn⟩ := by
          intro h; rw [h] at hi; simp at hi
        simp [Function.update, this]
      · intro i h1 h2; omega
    · have hlt2 : a < n := by omega
      obtain ⟨b, hb, hnz⟩ := hprev ⟨a, ha4⟩ le_rfl hlt2
      rw [map_loop_step_image H env desc a r ha4 s b hdesc hb hnz]
      have IH := ih (a + 1)
        { p_mapper := { s.p_mapper with
                        images := Function.update s.p_mapper.images ⟨a, ha4⟩
                          (env.CreateImageKHR a b.attribs) },
          tex := Function.update s.tex ⟨a, ha4⟩ (s.p_mapper.tex ⟨a, ha4⟩) }
        hdesc (by omega) (by omega)
        (fun i h1 h2 => hprev i (by omega) h2) hfail
      obtain ⟨r1, r2, r3, r4, r5, r6⟩ := IH
      refine ⟨r1, ?_, ?_, ?_, ?_, r6⟩
      · simp only [Run.after, List.filter_append, List.length_append]
        rw [r2]
        simp [Call.isCreateImage]
        omega
      · simp only [Run.after]
        rw [r3]
      · intro i hi
        simp only [Run.after]
        rw [r4 i (by omega)]
        have : i ≠ ⟨a, ha4⟩ := by
          intro h; rw [h] at hi; simp at hi; omega
        simp [Function.update, this]
      · intro i h1 h2
        simp only [Run.after]
        by_cases hia : i.val = a
        · have hi : i = ⟨a, ha4⟩ := Fin.ext hia
          subst hi
          refine ⟨b, hb, ?_⟩
          rw [r4 _ (Or.inl (by simp))]
          simp [Function.update]
        · exact r5 i (by omega) h2

/-- The number of live slots when the slots below `n` are live and the others
are null. -/
theorem count_live (f : Fin 4 → Nat) (n : Fin 4) (h1 : ∀ i : Fin 4, i.val < n.val → f i ≠ 0)
    (h2 : f n = 0) (h3 : ∀ i : Fin 4, n.val < i.val → f i = 0) :
    ((arr4 f).filter (fun img => img ≠ 0)).length = n.val := by
  have a0 : 0 < n.val → f 0 ≠ 0 := fun h => h1 0 h
  have a1 : 1 < n.val → f 1 ≠ 0 := fun h => h1 1 h
  have a2 : 2 < n.val → f 2 ≠ 0 := fun h => h1 2 h
  have b1 : n.val < 1 → f 1 = 0 := fun h => h3 1 h
  have b2 : n.val < 2 → f 2 = 0 := fun h => h3 2 h
  have b3 : n.val < 3 → f 3 = 0 := fun h => h3 3 h
  fin_cases n <;> simp at a0 a1 a2 b1 b2 b3 h2 <;> simp [arr4, *]

/-- The function `drmprime_gl_mapper_unmap` on a mapper whose private pointer
addresses the block `p`. -/
theorem unmap_of_priv (env : Env) (mapper : ra_hwdec_mapper) (p : priv)
    (hp : mapper.priv = some p) :
    drmprime_gl_mapper_unmap env mapper
      = ⟨((arr4 p.images).filter (fun img => img ≠ 0)).map
            (fun img => Call.DestroyImageKHR p.DestroyImageKHR env.eglGetCurrentDisplay img),
          { mapper with priv := some { p with images := fun _ => 0 } }, .ok ()⟩ := by
  obtain ⟨owner, pr, sp, dp, src, tex⟩ := mapper
  simp only at hp
  subst hp
  exact unmap_some env owner p sp dp src tex

/-- C9: when the image-create entry point returns null for plane `n` of the
session and an image for every plane before it, `drmprime_gl_mapper_map`
returns 1; it has made `n + 1` image-create calls; the slots of the planes
before `n` hold the images that were returned, slot `n` is null and the slots
after `n` are as they were, so that with those slots null at entry exactly `n`
handles are live; and a call of `drmprime_gl_mapper_unmap` that follows
destroys each live handle and clears all four slots. -/
theorem mapper_map_abort_on_first_null (H : Headers) (env : Env) (mapper : ra_hwdec_mapper)
    (p : priv) (src : mp_image) (desc : AVDRMFrameDescriptor) (n : Fin 4)
    (hp : mapper.priv = some p) (hs : mapper.src = some src) (hd : src.planes0 = some desc)
    (hn : (n.val : Int) < p.num_planes)
    (hprev : ∀ i : Fin 4, i.val < n.val →
      ∃ b, plane_attribs H desc i (p.tex i) = .ok b ∧ env.CreateImageKHR i.val b.attribs ≠ 0)
    (hnull : ∃ b, plane_attribs H desc n (p.tex n) = .ok b ∧
      env.CreateImageKHR n.val b.attribs = 0) :
    (drmprime_gl_mapper_map H env mapper).result = .ok 1 ∧
    ((drmprime_gl_mapper_map H env mapper).calls.filter Call.isCreateImage).length
      = n.val + 1 ∧
    ∃ q, (drmprime_gl_mapper_map H env mapper).state.priv = some q ∧
      (∀ i : Fin 4, i.val < n.val →
        ∃ b, plane_attribs H desc i (p.tex i) = .ok b ∧
          q.images i = env.CreateImageKHR i.val b.attribs ∧ q.images i ≠ 0) ∧
      q.images n = 0 ∧
      (∀ i : Fin 4, n.val < i.val → q.images i = p.images i) ∧
      ((∀ i : Fin 4, n.val < i.val → p.images i = 0) →
        ((arr4 q.images).filter (fun img => img ≠ 0)).length = n.val) ∧
      (drmprime_gl_mapper_unmap env (drmprime_gl_mapper_map H env mapper).state).calls
        = ((arr4 q.images).filter (fun img => img ≠ 0)).map
            (fun img => Call.DestroyImageKHR p.DestroyImageKHR env.eglGetCurrentDisplay img) ∧
      (drmprime_gl_mapper_unmap env (drmprime_gl_mapper_map H env mapper).state).state.priv
        = some { q with images := fun _ => 0 } := by
  have hrem : n.val < 0 + p.num_planes.toNat := by omega
  have L := map_loop_abort H env desc n.val n.isLt p.num_planes.toNat 0
    ⟨{ p with desc := src.planes0 }, mapper.tex⟩ hd (Nat.zero_le _) hrem
    (fun i _ h2 => hprev i h2) hnull
  obtain ⟨l1, l2, l3, l4, l5, l6⟩ := L
  have hmap : drmprime_gl_mapper_map H env mapper
      = { calls := (mapper_map_loop H env 0 p.num_planes.toNat
                      ⟨{ p with desc := src.planes0 }, mapper.tex⟩).calls,
          state := { mapper with
            priv := some (mapper_map_loop H env 0 p.num_planes.toNat
                      ⟨{ p with desc := src.planes0 }, mapper.tex⟩).state.p_mapper,
            tex := (mapper_map_loop H env 0 p.num_planes.toNat
                      ⟨{ p with desc := src.planes0 }, mapper.tex⟩).state.tex },
          result := (mapper_map_loop H env 0 p.num_planes.toNat
                      ⟨{ p with desc := src.planes0 }, mapper.tex⟩).result } := by
    unfold drmprime_gl_mapper_map
    simp only [hp, hs]
  rw [hmap]
  refine ⟨l1, by simpa using l2, _, rfl, ?_, l6, ?_, ?_, ?_, ?_⟩
  · intro i hi
    obtain ⟨b, hb, he⟩ := l5 i (Nat.zero_le _) hi
    obtain ⟨b2, hb2, hnz⟩ := hprev i hi
    have hbb : b = b2 := by
      have := hb.symm.trans hb2
      injection this
    subst hbb
    exact ⟨b, hb, he, by rw [he]; exact hnz⟩
  · intro i hi
    exact l4 i (Or.inr hi)
  · intro hz
    refine count_live _ n ?_ l6 ?_
    · intro i hi
      obtain ⟨b, hb, he⟩ := l5 i (Nat.zero_le _) hi
      obtain ⟨b2, hb2, hnz⟩ := hprev i hi
      have hbb : b = b2 := by
        have := hb.symm.trans hb2
        injection this
      subst hbb
      rw [he]; exact hnz
    · intro i hi
      rw [l4 i (Or.inr hi)]
      exact hz i hi
  · rw [unmap_of_priv env _ _ rfl]
    simp only
    rw [l3]
  · rw [unmap_of_priv env _ _ rfl]

/-- C9 at a concrete input: a session of two planes in which the create entry
point returns image 1 for plane 0 and null for plane 1.  Map returns 1 after
two create calls, slot 0 holds image 1 and the other slots are null, and the
unmap that follows destroys image 1 and nothing else. -/
theorem mapper_map_abort_on_first_null_witness :
    ((drmprime_gl_mapper_map sample_headers (sample_env_null_at 1)
        (sample_mapper (some (sample_session 2)) 2)).result = .ok 1 ∧
      ((drmprime_gl_mapper_map sample_headers (sample_env_null_at 1)
        (sample_mapper (some (sample_session 2)) 2)).calls.filter Call.isCreateImage).length
        = 1 + 1 ∧
      ∃ q, (drmprime_gl_mapper_map sample_headers (sample_env_null_at 1)
          (sample_mapper (some (sample_session 2)) 2)).state.priv = some q ∧
        (∀ i : Fin 4, i.val < 1 →
          ∃ b, plane_attribs sample_headers (sample_frame 2) i ((sample_session 2).tex i)
              = .ok b ∧
            q.images i = (sample_env_null_at 1).CreateImageKHR i.val b.attribs ∧
            q.images i ≠ 0) ∧
        q.images 1 = 0 ∧
        (∀ i : Fin 4, 1 < i.val → q.images i = (sample_session 2).images i) ∧
        ((∀ i : Fin 4, 1 < i.val → (sample_session 2).images i = 0) →
          ((arr4 q.images).filter (fun img => img ≠ 0)).length = 1) ∧
        (drmprime_gl_mapper_unmap (sample_env_null_at 1)
            (drmprime_gl_mapper_map sample_headers (sample_env_null_at 1)
              (sample_mapper (some (sample_session 2)) 2)).state).calls
          = ((arr4 q.images).filter (fun img => img ≠ 0)).map
              (fun img => Call.DestroyImageKHR (sample_session 2).DestroyImageKHR
                (sample_env_null_at 1).eglGetCurrentDisplay img) ∧
        (drmprime_gl_mapper_unmap (sample_env_null_at 1)
            (drmprime_gl_mapper_map sample_headers (sample_env_null_at 1)
              (sample_mapper (some (sample_session 2)) 2)).state).state.priv
          = some { q with images := fun _ => 0 }) ∧
    ((drmprime_gl_mapper_map sample_headers (sample_env_null_at 1)
        (sample_mapper (some (sample_session 2)) 2)).state.priv.map (fun q => arr4 q.images)
        = some [1, 0, 0, 0] ∧
      (drmprime_gl_mapper_unmap (sample_env_null_at 1)
          (drmprime_gl_mapper_map sample_headers (sample_env_null_at 1)
            (sample_mapper (some (sample_session 2)) 2)).state).calls
        = [Call.DestroyImageKHR 102 1 1]) :=
  ⟨mapper_map_abort_on_first_null sample_headers (sample_env_null_at 1)
      (sample_mapper (some (sample_session 2)) 2) (sample_session 2)
      { params := ⟨99, 5, 1920, 1080⟩, planes0 := some (sample_frame 2) } (sample_frame 2) 1
      rfl rfl rfl (by decide)
      (fun i hi => by
        fin_cases i
        · exact ⟨_, rfl, by decide⟩
        all_goals exact absurd hi (by decide))
      ⟨_, rfl, rfl⟩,
    rfl, rfl⟩

/-- One turn of the loop of `drmprime_gl_mapper_init` on a plane whose
component type is not `RA_CTYPE_UNORM`. -/
theorem init_loop_step_reject (H : Headers) (env : Env) (desc : ra_imgfmt_desc)
    (a r : Nat) (h : a < 4) (p : priv) (f : ra_format)
    (hf : desc.planes ⟨a, h⟩ = some f) (hc : f.ctype ≠ H.RA_CTYPE_UNORM) :
    mapper_init_loop H env desc a (r + 1) p
      = ⟨configure_texture (p.gl_textures ⟨a, h⟩), p, .ok 1⟩ := by
  rw [mapper_init_loop]
  simp only [h, dite_true, tex_params, hf, hc, ne_eq, not_false_eq_true, if_true]

/-- One turn of the loop of `drmprime_gl_mapper_init` in which wrapping the
texture name fails. -/
theorem init_loop_step_wrap_null (H : Headers) (env : Env) (desc : ra_imgfmt_desc)
    (a r : Nat) (h : a < 4) (p : priv) (f : ra_format)
    (hf : desc.planes ⟨a, h⟩ = some f) (hc : f.ctype = H.RA_CTYPE_UNORM)
    (hw : env.ra_create_wrapped_tex (tex_params env p.layout desc ⟨a, h⟩)
            (p.gl_textures ⟨a, h⟩) = none) :
    mapper_init_loop H env desc a (r + 1) p
      = ⟨configure_texture (p.gl_textures ⟨a, h⟩) ++
            [Call.ra_create_wrapped_tex (tex_params env p.layout desc ⟨a, h⟩)
              (p.gl_textures ⟨a, h⟩)],
          { p with tex := Function.update p.tex ⟨a, h⟩ none }, .ok 1⟩ := by
  rw [mapper_init_loop]
  simp only [tex_params, hf] at hw
  simp only [h, dite_true, tex_params, hf, hc, ne_eq, not_true_eq_false, if_false, hw]

/-- One turn of the loop of `drmprime_gl_mapper_init` in which the texture name
is wrapped. -/
theorem init_loop_step_wrap (H : Headers) (env : Env) (desc : ra_imgfmt_desc)
    (a r : Nat) (h : a < 4) (p : priv) (f : ra_format) (t : ra_tex)
    (hf : desc.planes ⟨a, h⟩ = some f) (hc : f.ctype = H.RA_CTYPE_UNORM)
    (hw : env.ra_create_wrapped_tex (tex_params env p.layout desc ⟨a, h⟩)
            (p.gl_textures ⟨a, h⟩) = some t) :
    mapper_init_loop H env desc a (r + 1) p
      = (mapper_init_loop H env desc (a + 1) r
          { p with tex := Function.update p.tex ⟨a, h⟩ (some t) }).after
          (configure_texture (p.gl_textures ⟨a, h⟩) ++
            [Call.ra_create_wrapped_tex (tex_params env p.layout desc ⟨a, h⟩)
              (p.gl_textures ⟨a, h⟩)]) := by
  rw [mapper_init_loop]
  simp only [tex_params, hf] at hw
  simp only [h, dite_true, tex_params, hf, hc, ne_eq, not_true_eq_false, if_false, hw]

/-- No call of `configure_texture` wraps a texture name. -/
theorem configure_texture_no_wrap (t : Nat) (c : Call) (hc : c ∈ configure_texture t) :
    c.isWrap = false := by
  simp only [configure_texture, List.mem_cons, List.mem_singleton, List.not_mem_nil,
    or_false] at hc
  rcases hc with h | h | h | h | h | h <;> rw [h] <;> rfl

/-- The loop of `drmprime_gl_mapper_init` when plane `n` is the first plane
from `a` on whose component type is not `RA_CTYPE_UNORM`. -/
theorem init_loop_reject (H : Headers) (env : Env) (desc : ra_imgfmt_desc)
    (n : Nat) (hn : n < 4) (remaining : Nat) : ∀ (a : Nat) (p : priv),
    a ≤ n → n < a + remaining →
    (∀ i : Fin 4, a ≤ i.val → i.val < n →
      ∃ f, desc.planes i = some f ∧ f.ctype = H.RA_CTYPE_UNORM) →
    (∃ f, desc.planes ⟨n, hn⟩ = some f ∧ f.ctype ≠ H.RA_CTYPE_UNORM) →
    (mapper_init_loop H env desc a remaining p).result = .ok 1 ∧
    (∀ c ∈ (mapper_init_loop H env desc a remaining p).calls, c.isWrap = true →
      ∃ i : Fin 4, a ≤ i.val ∧ i.val < n ∧
        c = Call.ra_create_wrapped_tex (tex_params env p.layout desc i) (p.gl_textures i)) ∧
    (∀ i : Fin 4, (i.val < a ∨ n ≤ i.val) →
      (mapper_init_loop H env desc a remaining p).state.tex i = p.tex i) ∧
    ((∀ i : Fin 4, a ≤ i.val → i.val < n →
        env.ra_create_wrapped_tex (tex_params env p.layout desc i) (p.gl_textures i) ≠ none) →
      configure_texture (p.gl_textures ⟨n, hn⟩)
        <:+ (mapper_init_loop H env desc a remaining p).calls) := by
  induction remaining with
  | zero => intro a p h1 h2; omega
  | succ r ih =>
    intro a p han hlt hprev hrej
    have ha4 : a < 4 := by omega
    by_cases hEq : a = n
    · subst hEq
      obtain ⟨f, hf, hc⟩ := hrej
      rw [init_loop_step_reject H env desc a r hn p f hf hc]
      refine ⟨rfl, ?_, fun _ _ => rfl, fun _ => List.suffix_refl _⟩
      intro c hmem hwrap
      rw [configure_texture_no_wrap _ c hmem] at hwrap
      cases hwrap
    · have hlt2 : a < n := by omega
      obtain ⟨f, hf, hc⟩ := hprev ⟨a, ha4⟩ le_rfl hlt2
      cases hw : env.ra_create_wrapped_tex (tex_params env p.layout desc ⟨a, ha4⟩)
          (p.gl_textures ⟨a, ha4⟩) with
      | none =>
        rw [init_loop_step_wrap_null H env desc a r ha4 p f hf hc hw]
        refine ⟨rfl, ?_, ?_, ?_⟩
        · intro c hmem hwrap
          simp only [List.mem_append, List.mem_singleton] at hmem
          rcases hmem with hmem | hmem
          · rw [configure_texture_no_wrap _ c hmem] at hwrap
            cases hwrap
          · exact ⟨⟨a, ha4⟩, le_rfl, hlt2, hmem⟩
        · intro i hi
          have : i ≠ ⟨a, ha4⟩ := by
            intro h; rw [h] at hi; simp at hi; omega
          simp [Function.update, this]
        · intro hall
          exact absurd hw (hall ⟨a, ha4⟩ le_rfl hlt2)
      | some t =>
        rw [init_loop_step_wrap H env desc a r ha4 p f t hf hc hw]
        have IH := ih (a + 1) { p with tex := Function.update p.tex ⟨a, ha4⟩ (some t) }
          (by omega) (by omega) (fun i h1 h2 => hprev i (by omega) h2) hrej
        obtain ⟨r1, r2, r3, r4⟩ := IH
        refine ⟨r1, ?_, ?_, ?_⟩
        · intro c hmem hwrap
          simp only [Run.after, List.mem_append, List.mem_singleton] at hmem
          rcases hmem with (hmem | hmem) | hmem
          · rw [configure_texture_no_wrap _ c hmem] at hwrap
            cases hwrap
          · exact ⟨⟨a, ha4⟩, le_rfl, hlt2, hmem⟩
          · obtain ⟨i, h1, h2, h3⟩ := r2 c hmem hwrap
            exact ⟨i, by omega, h2, h3⟩
        · intro i hi
          simp only [Run.after]
          rw [r3 i (by omega)]
          have : i ≠ ⟨a, ha4⟩ := by
            intro h; rw [h] at hi; simp at hi; omega
          simp [Function.update, this]
        · intro hall
          simp only [Run.after]
          exact (r4 (fun i h1 h2 => hall i (by omega) h2)).trans (List.suffix_append _ _)

/-- C7, amended: when plane `n` of the destination layout is the first plane
whose component type is not `RA_CTYPE_UNORM`, `drmprime_gl_mapper_init` returns
1, every wrap call it has made is for a plane before `n`, and the texture
object slots from `n` on are as they were.  Texture names are nevertheless
generated for all four slots: when the three entry points resolve, the first
call is `GenTextures(4, ...)`, and when the planes before `n` are wrapped the
run ends with the name of plane `n` being bound and configured. -/
theorem mapper_init_rejects_non_unorm (H : Headers) (env : Env) (mapper : ra_hwdec_mapper)
    (desc : ra_imgfmt_desc) (n : Fin 4)
    (hd : env.ra_get_imgfmt_desc H.IMGFMT_NV12 = some desc)
    (hn : (n.val : Int) < desc.num_planes)
    (hprev : ∀ i : Fin 4, i.val < n.val →
      ∃ f, desc.planes i = some f ∧ f.ctype = H.RA_CTYPE_UNORM)
    (hrej : ∃ f, desc.planes n = some f ∧ f.ctype ≠ H.RA_CTYPE_UNORM) :
    (drmprime_gl_mapper_init H env mapper).result = .ok 1 ∧
    (∀ c ∈ (drmprime_gl_mapper_init H env mapper).calls, c.isWrap = true →
      ∃ i : Fin 4, i.val < n.val ∧
        ∃ params, c = Call.ra_create_wrapped_tex params (env.GenTextures i)) ∧
    (∀ i : Fin 4, n.val ≤ i.val →
      (drmprime_gl_mapper_init H env mapper).state.owner.priv.tex i
        = mapper.owner.priv.tex i) ∧
    (env.eglGetProcAddress "eglCreateImageKHR" ≠ 0 →
      env.eglGetProcAddress "eglDestroyImageKHR" ≠ 0 →
      env.eglGetProcAddress "glEGLImageTargetTexture2DOES" ≠ 0 →
      (drmprime_gl_mapper_init H env mapper).calls.head?
        = some (Call.GenTextures 4 (arr4 env.GenTextures)) ∧
      ((∀ i : Fin 4, i.val < n.val →
          ∀ params, env.ra_create_wrapped_tex params (env.GenTextures i) ≠ none) →
        configure_texture (env.GenTextures n)
          <:+ (drmprime_gl_mapper_init H env mapper).calls)) := by
  have hrem : n.val < 0 + desc.num_planes.toNat := by omega
  obtain ⟨l1, l2, l3, l4⟩ := init_loop_reject H env desc n.val n.isLt desc.num_planes.toNat 0
    { mapper.owner.priv with
      num_planes := desc.num_planes,
      layout := env.mp_image_set_params mapper.owner.priv.layout
        { mapper.src_params with imgfmt := H.IMGFMT_NV12, hw_subfmt := 0 },
      CreateImageKHR := env.eglGetProcAddress "eglCreateImageKHR",
      DestroyImageKHR := env.eglGetProcAddress "eglDestroyImageKHR",
      EGLImageTargetTexture2DOES := env.eglGetProcAddress "glEGLImageTargetTexture2DOES",
      gl_textures := env.GenTextures }
    (Nat.zero_le _) hrem (fun i _ h => hprev i h) hrej
  unfold drmprime_gl_mapper_init
  simp only [hd]
  split_ifs with hE
  · refine ⟨rfl, by simp, fun _ _ => rfl, ?_⟩
    intro h1 h2 h3
    rcases hE with h | h | h
    · exact absurd h h1
    · exact absurd h h2
    · exact absurd h h3
  · refine ⟨l1, ?_, fun i hi => l3 i (Or.inr hi), ?_⟩
    · intro c hmem hwrap
      simp only [List.mem_cons] at hmem
      rcases hmem with hmem | hmem
      · rw [hmem] at hwrap
        cases hwrap
      · obtain ⟨i, _, h2, h3⟩ := l2 c hmem hwrap
        exact ⟨i, h2, _, h3⟩
    · intro _ _ _
      refine ⟨rfl, ?_⟩
      intro hall
      exact (l4 (fun i _ h => hall i h _)).trans (List.suffix_cons _ _)

/-- C7, counterexample: with a destination layout whose plane 0 is not of
type `RA_CTYPE_UNORM`, `drmprime_gl_mapper_init` returns 1, yet it has
generated the four texture names 1 to 4 and has bound and configured name 1,
the texture of plane 0. -/
theorem mapper_init_reject_after_gen_textures :
    (∃ f, float_planes 0 = some f ∧ f.ctype ≠ sample_headers.RA_CTYPE_UNORM) ∧
    (drmprime_gl_mapper_init sample_headers (sample_env float_planes)
        (sample_mapper (some priv.zeroed) 2)).result = .ok 1 ∧
    (drmprime_gl_mapper_init sample_headers (sample_env float_planes)
        (sample_mapper (some priv.zeroed) 2)).calls
      = [Call.GenTextures 4 [1, 2, 3, 4],
         Call.BindTexture GLenum.GL_TEXTURE_2D 1,
         Call.TexParameteri GLenum.GL_TEXTURE_2D GLenum.GL_TEXTURE_MIN_FILTER GLenum.GL_LINEAR,
         Call.TexParameteri GLenum.GL_TEXTURE_2D GLenum.GL_TEXTURE_MAG_FILTER GLenum.GL_LINEAR,
         Call.TexParameteri GLenum.GL_TEXTURE_2D GLenum.GL_TEXTURE_WRAP_S
           GLenum.GL_CLAMP_TO_EDGE,
         Call.TexParameteri GLenum.GL_TEXTURE_2D GLenum.GL_TEXTURE_WRAP_T
           GLenum.GL_CLAMP_TO_EDGE,
         Call.BindTexture GLenum.GL_TEXTURE_2D 0] ∧
    arr4 (drmprime_gl_mapper_init sample_headers (sample_env float_planes)
        (sample_mapper (some priv.zeroed) 2)).state.owner.priv.gl_textures = [1, 2, 3, 4] :=
  ⟨⟨_, rfl, by decide⟩, rfl, rfl, rfl⟩

/-- C7, amended, at a concrete input: plane 0 is of type `RA_CTYPE_UNORM` and
plane 1 is not.  Init returns 1 after generating four names, configuring and
wrapping name 1 and configuring name 2; the only wrap call is for plane 0. -/
theorem mapper_init_rejects_non_unorm_witness :
    ((drmprime_gl_mapper_init sample_headers (sample_env mixed_planes)
        (sample_mapper (some priv.zeroed) 2)).result = .ok 1 ∧
      (∀ c ∈ (drmprime_gl_mapper_init sample_headers (sample_env mixed_planes)
          (sample_mapper (some priv.zeroed) 2)).calls, c.isWrap = true →
        ∃ i : Fin 4, i.val < 1 ∧
          ∃ params, c = Call.ra_create_wrapped_tex params ((sample_env mixed_planes).GenTextures i)) ∧
      (∀ i : Fin 4, 1 ≤ i.val →
        (drmprime_gl_mapper_init sample_headers (sample_env mixed_planes)
          (sample_mapper (some priv.zeroed) 2)).state.owner.priv.tex i = none) ∧
      (drmprime_gl_mapper_init sample_headers (sample_env mixed_planes)
          (sample_mapper (some priv.zeroed) 2)).calls.head?
        = some (Call.GenTextures 4 [1, 2, 3, 4]) ∧
      configure_texture 2
        <:+ (drmprime_gl_mapper_init sample_headers (sample_env mixed_planes)
              (sample_mapper (some priv.zeroed) 2)).calls) ∧
    (drmprime_gl_mapper_init sample_headers (sample_env mixed_planes)
        (sample_mapper (some priv.zeroed) 2)).calls.filter Call.isWrap
      = [Call.ra_create_wrapped_tex
          { dimensions := 2, w := 1920, h := 1080, d := 1, format := some ⟨1⟩,
            render_src := true, src_linear := true } 1] :=
  have T := mapper_init_rejects_non_unorm sample_headers (sample_env mixed_planes)
    (sample_mapper (some priv.zeroed) 2) { num_planes := 2, planes := mixed_planes } 1
    rfl (by decide)
    (fun i hi => by
      fin_cases i
      · exact ⟨_, rfl, rfl⟩
      all_goals exact absurd hi (by decide))
    ⟨_, rfl, by decide⟩
  ⟨⟨T.1, T.2.1, T.2.2.1,
    (T.2.2.2 (by decide) (by decide) (by decide)).1,
    (T.2.2.2 (by decide) (by decide) (by decide)).2
      (fun _ _ _ h => Option.noConfusion h)⟩, rfl⟩
end DrmprimeEgl
